import Mathlib

/-!
Verification development for the JobFlow service-marketplace application.

The definitions below are a shallow embedding of the JavaScript source:
`src/quoting.js` (quoting engine and contractor ranking), `src/sms.js`
(contractor-response parsing), `src/ai.js` (conversation state machine and
the simple quoting model), `src/scheduler.js` (reminder timers),
`src/routes/dashboard.js` and `src/routes/api.js` (job status updates).
JavaScript numbers are modelled as rationals, `Math.round` as rounding half
up, and the falsy-default idiom `x || d` as an explicit zero/empty test.
-/

namespace JobFlow

/-- JavaScript `Math.round`: rounds half toward positive infinity. -/
def jsRound (q : ℚ) : ℤ := ⌊q + 1/2⌋

/-- JavaScript `x || d` for a number already known to be non-NaN:
the default applies exactly when the value is `0` (falsy). -/
def jsOrQ (x d : ℚ) : ℚ := if x = 0 then d else x

/-- JavaScript `x || d` for a nullable number: `null` and `0` are falsy. -/
def jsOrOptQ (x : Option ℚ) (d : ℚ) : ℚ :=
  match x with
  | none => d
  | some v => if v = 0 then d else v

/-- JavaScript `s || d` for a string: the default applies exactly when the
string is empty (falsy). -/
def jsOrString (s d : String) : String := if s = "" then d else s

/-- JavaScript `haystack.includes(needle)` on lists of characters. -/
def listIncludes (s pat : List Char) : Bool :=
  (List.range (s.length + 1)).any fun i => pat.isPrefixOf (s.drop i)

/-- JavaScript `haystack.includes(needle)` for strings. -/
def strIncludes (s pat : String) : Bool := listIncludes s.toList pat.toList

/-- JavaScript `s.toUpperCase()` (ASCII, which is all the code compares). -/
def jsToUpper (s : String) : String := (s.toList.map Char.toUpper).asString

/-- JavaScript `s.toLowerCase()` (ASCII, which is all the code compares). -/
def jsToLower (s : String) : String := (s.toList.map Char.toLower).asString

/-- JavaScript `s.trim()`: strip leading and trailing whitespace. -/
def jsTrim (s : String) : String :=
  ((s.toList.dropWhile Char.isWhitespace).reverse.dropWhile Char.isWhitespace).reverse.asString

/-- JavaScript `s.startsWith(pre)`. -/
def jsStartsWith (s pre : String) : Bool := pre.toList.isPrefixOf s.toList

/-- JavaScript `s.substring(n)` (ASCII, one code unit per character). -/
def jsSubstringFrom (s : String) (n : Nat) : String := (s.toList.drop n).asString

/-- Worker for `jsSplitSpace`: accumulate the current piece (reversed). -/
def splitSpaceAux : List Char → List Char → List String
  | [], acc => [acc.reverse.asString]
  | c :: rest, acc =>
    if c = ' ' then acc.reverse.asString :: splitSpaceAux rest []
    else splitSpaceAux rest (c :: acc)

/-- JavaScript `s.split(' ')`: split at every single space, keeping empty
pieces. -/
def jsSplitSpace (s : String) : List String := splitSpaceAux s.toList []

/-- JavaScript `parts.join(' ')`. -/
def jsJoinSpace : List String → String
  | [] => ""
  | p :: rest => rest.foldl (fun acc x => acc ++ " " ++ x) p

/-- A row of the `contractors` table, restricted to the columns the quoting
engine and the schedulers read.  `emergency_markup` is nullable in the
database (`findBestContractor` tests it against `null`). -/
structure Contractor where
  phone_number : String
  business_name : String
  trade_type : String
  service_area_zip : String
  services_offered : List String
  base_service_fee : ℚ
  hourly_rate : ℚ
  emergency_markup : Option ℚ
  is_active : Bool
deriving DecidableEq

/-- The job fields read by `QuotingEngine.generateQuote` and
`findBestContractor` (`src/quoting.js`). -/
structure JobDetails where
  problem_description : String
  service_category : String
  urgency_level : String
deriving DecidableEq

/-- Job complexity classes used by the detailed quoting model. -/
inductive Complexity
  | simple
  | moderate
  | complex
deriving DecidableEq

/-- One entry of the `categoryComplexity` table in `src/quoting.js`. -/
structure ComplexityData where
  hours : ℚ
  complexity : ℚ
  description : String
deriving DecidableEq

/-- Entry `categoryComplexity['plumbing']` from `src/quoting.js`. -/
def plumbingComplexity : Complexity → ComplexityData
  | .simple => ⟨1, 1.0, "Basic repair"⟩
  | .moderate => ⟨2.5, 1.3, "Standard installation"⟩
  | .complex => ⟨4, 1.6, "Major repair/replacement"⟩

/-- Entry `categoryComplexity['electrical']` from `src/quoting.js`. -/
def electricalComplexity : Complexity → ComplexityData
  | .simple => ⟨1.5, 1.2, "Outlet/switch work"⟩
  | .moderate => ⟨3, 1.5, "Circuit installation"⟩
  | .complex => ⟨6, 2.0, "Panel/major wiring"⟩

/-- Entry `categoryComplexity['hvac']` from `src/quoting.js`. -/
def hvacComplexity : Complexity → ComplexityData
  | .simple => ⟨1, 1.1, "Filter/maintenance"⟩
  | .moderate => ⟨3, 1.4, "Repair/tune-up"⟩
  | .complex => ⟨8, 1.8, "Installation/replacement"⟩

/-- Entry `categoryComplexity['general_handyman']` from `src/quoting.js`. -/
def generalHandymanComplexity : Complexity → ComplexityData
  | .simple => ⟨1, 0.9, "Simple fix"⟩
  | .moderate => ⟨2, 1.1, "Installation/repair"⟩
  | .complex => ⟨4, 1.3, "Multi-step project"⟩

/-- Entry `categoryComplexity['appliance_repair']` from `src/quoting.js`. -/
def applianceRepairComplexity : Complexity → ComplexityData
  | .simple => ⟨1, 1.0, "Diagnostic/simple fix"⟩
  | .moderate => ⟨2, 1.2, "Part replacement"⟩
  | .complex => ⟨3, 1.5, "Major repair"⟩

/-- Entry `categoryComplexity['roofing']` from `src/quoting.js`. -/
def roofingComplexity : Complexity → ComplexityData
  | .simple => ⟨2, 1.3, "Small repair"⟩
  | .moderate => ⟨6, 1.7, "Section repair"⟩
  | .complex => ⟨16, 2.5, "Full replacement"⟩

/-- Entry `categoryComplexity['flooring']` from `src/quoting.js`. -/
def flooringComplexity : Complexity → ComplexityData
  | .simple => ⟨2, 1.1, "Small area"⟩
  | .moderate => ⟨6, 1.4, "Room installation"⟩
  | .complex => ⟨12, 1.7, "Whole house"⟩

/-- The `categoryComplexity` dictionary: `none` models an absent key. -/
def categoryComplexity (category : String) : Option (Complexity → ComplexityData) :=
  if category = "plumbing" then some plumbingComplexity
  else if category = "electrical" then some electricalComplexity
  else if category = "hvac" then some hvacComplexity
  else if category = "general_handyman" then some generalHandymanComplexity
  else if category = "appliance_repair" then some applianceRepairComplexity
  else if category = "roofing" then some roofingComplexity
  else if category = "flooring" then some flooringComplexity
  else none

/-- The `urgencyMultipliers` dictionary of the detailed model:
`none` models an absent key (the caller applies the `|| 1.1` default). -/
def urgencyMultipliers (u : String) : Option ℚ :=
  if u = "low" then some 1.0
  else if u = "medium" then some 1.1
  else if u = "high" then some 1.25
  else if u = "emergency" then some 1.0
  else none

/-- Complexity keyword table rows (`assessJobComplexity` in `src/quoting.js`). -/
structure KeywordRow where
  simpleKw : List String
  moderateKw : List String
  complexKw : List String

/-- The `complexityKeywords` dictionary from `assessJobComplexity`. -/
def complexityKeywords (category : String) : Option KeywordRow :=
  if category = "plumbing" then
    some ⟨["faucet", "leak", "drip", "clog", "running", "flush", "handle"],
          ["install", "replace", "pipe", "fitting", "valve", "fixture"],
          ["main", "sewer", "remodel", "reroute", "whole house", "major"]⟩
  else if category = "electrical" then
    some ⟨["outlet", "switch", "light", "fixture", "bulb", "fuse"],
          ["circuit", "breaker", "wire", "install", "ceiling fan"],
          ["panel", "rewire", "upgrade", "service", "whole house", "220"]⟩
  else if category = "hvac" then
    some ⟨["filter", "thermostat", "maintenance", "clean", "check"],
          ["repair", "fix", "part", "component", "tune", "service"],
          ["install", "replace", "new system", "ductwork", "whole house"]⟩
  else if category = "general_handyman" then
    some ⟨["hang", "mount", "fix", "adjust", "tighten", "small"],
          ["install", "repair", "replace", "build", "assemble"],
          ["remodel", "construction", "major", "multiple", "project"]⟩
  else none

/-- Embedding of `QuotingEngine.assessJobComplexity`: classify a problem description,
checking complex keywords first, then moderate, then simple, defaulting to
moderate.  An unknown category falls back to the general-handyman row. -/
def assessJobComplexity (problemDescription category : String) : Complexity :=
  let description := jsToLower problemDescription
  let row := (complexityKeywords category).getD
    (⟨["hang", "mount", "fix", "adjust", "tighten", "small"],
      ["install", "repair", "replace", "build", "assemble"],
      ["remodel", "construction", "major", "multiple", "project"]⟩ : KeywordRow)
  if row.complexKw.any (fun k => strIncludes description k) then .complex
  else if row.moderateKw.any (fun k => strIncludes description k) then .moderate
  else if row.simpleKw.any (fun k => strIncludes description k) then .simple
  else .moderate

/-- Model of a JavaScript `Date` as read by `getTimeMultiplier`:
`day` is `getDay()` (0 = Sunday … 6 = Saturday), `hour` is `getHours()`. -/
structure TimeInfo where
  day : Nat
  hour : Nat
deriving DecidableEq

/-- Embedding of `QuotingEngine.getTimeMultiplier` (the `timeMultipliers` constants are
inlined at the branch that reads each of them). -/
def getTimeMultiplier (t : TimeInfo) : ℚ :=
  let isWeekend := t.day == 0 || t.day == 6
  if 22 ≤ t.hour ∨ t.hour < 8 then 1.5
  else if 18 ≤ t.hour then (if isWeekend then 1.3 else 1.2)
  else (if isWeekend then 1.15 else 1.0)

/-- The quote record returned by the detailed model (breakdown fields other
than the three costs are omitted; they are not read by the claims). -/
structure Quote where
  minCost : ℚ
  maxCost : ℚ
  averageCost : ℤ
deriving DecidableEq

/-- The local `category` of `generateQuote`: `service_category || 'general_handyman'`. -/
def quoteCategory (jobDetails : JobDetails) : String :=
  jsOrString jobDetails.service_category "general_handyman"

/-- The local `urgencyLevel` of `generateQuote`: `urgency_level || 'medium'`. -/
def quoteUrgency (jobDetails : JobDetails) : String :=
  jsOrString jobDetails.urgency_level "medium"

/-- The local `complexityData` of `generateQuote`:
`categoryComplexity[category]?.[complexity] || categoryComplexity['general_handyman']['moderate']`. -/
def complexityFor (category : String) (cx : Complexity) : ComplexityData :=
  match categoryComplexity category with
  | some row => row cx
  | none => generalHandymanComplexity .moderate

/-- The local `urgencyMultiplier` of `generateQuote`:
`urgencyMultipliers[urgencyLevel] || 1.1` (every table entry is truthy). -/
def quoteUrgencyMultiplier (urgencyLevel : String) : ℚ :=
  (urgencyMultipliers urgencyLevel).getD 1.1

/-- The local `emergencyMultiplier` of `generateQuote`:
`1.0 + (contractor.emergency_markup || 0.5)` on emergencies, else `1.0`. -/
def quoteEmergencyMultiplier (contractor : Contractor) (urgencyLevel : String) : ℚ :=
  if urgencyLevel = "emergency" then 1 + jsOrOptQ contractor.emergency_markup 0.5 else 1

/-- The local `timeMultiplier` of `generateQuote`: applied only when
`options.scheduledTime` is present. -/
def quoteTimeMultiplier (scheduledTime : Option TimeInfo) : ℚ :=
  match scheduledTime with
  | some t => getTimeMultiplier t
  | none => 1

/-- The local `totalWithMultipliers` of `generateQuote`:
`(baseFee + laborCost) × complexity × urgency × emergency × timeOfDay`. -/
def quoteTotal (jobDetails : JobDetails) (contractor : Contractor)
    (scheduledTime : Option TimeInfo) : ℚ :=
  let category := quoteCategory jobDetails
  let urgencyLevel := quoteUrgency jobDetails
  let complexityData :=
    complexityFor category (assessJobComplexity jobDetails.problem_description category)
  let baseFee := jsOrQ contractor.base_service_fee 75
  let hourlyRate := jsOrQ contractor.hourly_rate 100
  (baseFee + hourlyRate * complexityData.hours) * complexityData.complexity *
    quoteUrgencyMultiplier urgencyLevel *
    quoteEmergencyMultiplier contractor urgencyLevel *
    quoteTimeMultiplier scheduledTime

/-- Embedding of `QuotingEngine.generateQuote` from `src/quoting.js` (the detailed
model), on its non-throwing path: the job fields are well-typed strings, so
the `catch` fallback is unreachable.  The intermediate locals of the source
are the named definitions above. -/
def generateQuote (jobDetails : JobDetails) (contractor : Contractor)
    (scheduledTime : Option TimeInfo) : Quote :=
  let baseFee := jsOrQ contractor.base_service_fee 75
  let hourlyRate := jsOrQ contractor.hourly_rate 100
  let totalWithMultipliers := quoteTotal jobDetails contractor scheduledTime
  let minCost : ℤ := jsRound (totalWithMultipliers * 0.85)
  let maxCost : ℤ := jsRound (totalWithMultipliers * 1.15)
  let absoluteMinimum := baseFee + hourlyRate * 0.5
  let finalMinCost : ℚ := max (minCost : ℚ) absoluteMinimum
  let finalMaxCost : ℚ := max (maxCost : ℚ) (finalMinCost + 50)
  { minCost := finalMinCost
    maxCost := finalMaxCost
    averageCost := jsRound ((finalMinCost + finalMaxCost) / 2) }

/-- The `baseMultipliers` dictionary of the simple quoting model
(`AIConversationEngine.generateQuote` in `src/ai.js`); the `emergency`
entry is `1.0 + contractor.emergency_markup`, and JavaScript evaluates
`1.0 + null` to `1`, hence the `getD 0`. -/
def simpleBaseMultiplier (contractor : Contractor) (u : String) : Option ℚ :=
  if u = "low" then some 1.0
  else if u = "medium" then some 1.2
  else if u = "high" then some 1.4
  else if u = "emergency" then some (1 + contractor.emergency_markup.getD 0)
  else none

/-- Embedding of `AIConversationEngine.generateQuote` from `src/ai.js` (the simple
model): `(baseFee + hourlyRate × hours) × (baseMultipliers[urgency] || 1.2)`
with a fixed 1–3 hour band; returns `(minCost, maxCost)`. -/
def simpleGenerateQuote (urgency_level : String) (contractor : Contractor) : ℤ × ℤ :=
  let urgencyMultiplier :=
    match simpleBaseMultiplier contractor urgency_level with
    | none => 1.2
    | some v => if v = 0 then 1.2 else v
  (jsRound ((contractor.base_service_fee + contractor.hourly_rate * 1) * urgencyMultiplier),
   jsRound ((contractor.base_service_fee + contractor.hourly_rate * 3) * urgencyMultiplier))

/-- Embedding of `QuotingEngine.calculateServiceMatch` from `src/quoting.js`. -/
def calculateServiceMatch (requestedCategory : String) (contractorServices : List String) : ℚ :=
  if contractorServices.isEmpty then 0.5
  else
    let category := jsToLower requestedCategory
    let services := contractorServices.map jsToLower
    if services.any (fun service => strIncludes service category) then 1.0
    else
      let matchKeywords : List String :=
        if category = "plumbing" then ["pipe", "drain", "water", "plumb"]
        else if category = "electrical" then ["electric", "wire", "power", "light"]
        else if category = "hvac" then ["heat", "cool", "air", "hvac", "furnace"]
        else if category = "general_handyman" then ["repair", "fix", "install", "maintenance"]
        else []
      if matchKeywords.any (fun keyword => services.any (fun service => strIncludes service keyword)) then 0.8
      else 0.3

/-- One element of the `scoredContractors` array built by `findBestContractor`. -/
structure ScoredContractor where
  contractor : Contractor
  quote : Quote
  score : ℚ
deriving DecidableEq

/-- The scoring closure inside `findBestContractor`: price competitiveness
40%, service match 30%, active flag 20%, emergency capability 10%. -/
def scoreContractor (jobDetails : JobDetails) (contractor : Contractor) : ScoredContractor :=
  let quote := generateQuote jobDetails contractor none
  let priceScore := max 0 (1000 - (quote.averageCost : ℚ)) / 1000
  let serviceMatch := calculateServiceMatch jobDetails.service_category contractor.services_offered
  let availabilityScore : ℚ := if contractor.is_active then 1 else 0
  let emergencyScore : ℚ :=
    if jobDetails.urgency_level = "emergency" ∧ contractor.emergency_markup.isSome then 1 else 0.5
  { contractor := contractor
    quote := quote
    score := priceScore * 40 + serviceMatch * 30 + availabilityScore * 20 + emergencyScore * 10 }

/-- Stable descending insertion used to model
`scoredContractors.sort((a, b) => b.score - a.score)`: the inserted element
comes from earlier in the input array than every element of the list, so it
is placed in front of the first element whose key is less than or equal to
its own. -/
def insertDesc {α : Type} (key : α → ℚ) (a : α) : List α → List α
  | [] => [a]
  | b :: bs => if key b ≤ key a then a :: b :: bs else b :: insertDesc key a bs

/-- Stable descending sort.  JavaScript `Array.prototype.sort` is stable
(ES2019), and a stable sort is uniquely determined by the comparator, so
stable insertion sort is a faithful model of the source's
`sort((a, b) => b.score - a.score)`. -/
def sortByScoreDesc {α : Type} (key : α → ℚ) (l : List α) : List α :=
  l.foldr (insertDesc key) []

/-- Embedding of `QuotingEngine.findBestContractor` from `src/quoting.js`: score every
candidate, sort descending by score, return the first element (`null` on an
empty candidate list). -/
def findBestContractor (jobDetails : JobDetails) (availableContractors : List Contractor) :
    Option ScoredContractor :=
  if availableContractors.isEmpty then none
  else
    (sortByScoreDesc (fun s => s.score)
      (availableContractors.map (scoreContractor jobDetails))).head?

/-- Strips the characters removed by `replace(/[$,]/g, '')`. -/
def stripDollarsCommas (s : String) : String :=
  (s.toList.filter (fun c => c ≠ '$' ∧ c ≠ ',')).asString

/-- Numeric value of a decimal digit character. -/
def digitVal (c : Char) : ℕ := c.toNat - '0'.toNat

/-- Value of a string of decimal digit characters. -/
def digitsToNat (ds : List Char) : ℕ := ds.foldl (fun a c => 10 * a + digitVal c) 0

/-- JavaScript `parseFloat`: skip leading whitespace, read an optional sign,
then the longest prefix of the form `digits[.digits][E[sign]digits]` (also
`.digits`); `none` models `NaN`.  The `Infinity` literal is not modelled:
both call sites in `parseContractorResponse` pass upper-cased text, where
the case-sensitive `Infinity` cannot occur. -/
def jsParseFloat (s : String) : Option ℚ :=
  let cs := s.toList.dropWhile Char.isWhitespace
  let signAndRest : ℤ × List Char :=
    match cs with
    | '-' :: rest => (-1, rest)
    | '+' :: rest => (1, rest)
    | _ => (1, cs)
  let sign := signAndRest.1
  let cs := signAndRest.2
  let intDigits := cs.takeWhile Char.isDigit
  let afterInt := cs.drop intDigits.length
  let fracDigits : List Char :=
    match afterInt with
    | '.' :: rest => rest.takeWhile Char.isDigit
    | _ => []
  if intDigits.isEmpty ∧ fracDigits.isEmpty then none
  else
    let afterFrac : List Char :=
      match afterInt with
      | '.' :: rest => rest.drop fracDigits.length
      | _ => afterInt
    let exponent : ℤ :=
      match afterFrac with
      | 'E' :: rest | 'e' :: rest =>
        let expSignAndRest : ℤ × List Char :=
          match rest with
          | '-' :: r => (-1, r)
          | '+' :: r => (1, r)
          | _ => (1, rest)
        let expDigits := expSignAndRest.2.takeWhile Char.isDigit
        if expDigits.isEmpty then 0 else expSignAndRest.1 * (digitsToNat expDigits : ℤ)
      | _ => 0
    -- the parsed value sign × intDigits.fracDigits × 10^exponent, assembled
    -- with integer arithmetic into a single normalized fraction
    let num : ℤ := sign * (digitsToNat intDigits * 10 ^ fracDigits.length + digitsToNat fracDigits)
    let den : ℕ := 10 ^ fracDigits.length
    some (if 0 ≤ exponent then mkRat (num * 10 ^ exponent.toNat) den
      else mkRat num (den * 10 ^ (-exponent).toNat))

/-- The object returned by `SMSService.parseContractorResponse`
(`originalMessage`, echoed on the unknown action, is omitted; no claim
reads it). -/
structure ContractorResponse where
  action : String
  amount : Option ℚ
  description : Option String
deriving DecidableEq

/-- Embedding of `SMSService.parseContractorResponse` from `src/sms.js`: classify an
inbound contractor text into approve / call_customer / pass / custom_quote /
invoice / unknown, validating amounts and the invoice description. -/
def parseContractorResponse (message : String) : ContractorResponse :=
  let upperMessage := jsTrim (jsToUpper message)
  if upperMessage = "A" then ⟨"approve", none, none⟩
  else if upperMessage = "C" then ⟨"call_customer", none, none⟩
  else if upperMessage = "X" then ⟨"pass", none, none⟩
  else if jsStartsWith upperMessage "Q " then
    match jsParseFloat (stripDollarsCommas (jsSubstringFrom upperMessage 2)) with
    | some amount => if 0 < amount then ⟨"custom_quote", some amount, none⟩ else ⟨"unknown", none, none⟩
    | none => ⟨"unknown", none, none⟩
  else if jsStartsWith upperMessage "INVOICE " then
    let parts := jsSplitSpace (jsSubstringFrom upperMessage 8)
    let description := jsJoinSpace (parts.drop 1)
    match jsParseFloat (stripDollarsCommas (parts.headD "")) with
    | some amount =>
      if 0 < amount ∧ description ≠ "" then ⟨"invoice", some amount, some description⟩
      else ⟨"unknown", none, none⟩
    | none => ⟨"unknown", none, none⟩
  else ⟨"unknown", none, none⟩

/-- Result of one `processMessage` call: the persisted conversation state
and context after the call, and the reply text.  The context blob is
modelled as an association list of string keys and values. -/
structure ConvResult where
  state : String
  context : List (String × String)
  reply : String
deriving DecidableEq

/-- The reply of the CANCEL reset branch of `processMessage` (`src/ai.js`). -/
def cancelResetReply : String := "No problem — conversation reset. Text me anytime you need help!"

/-- Embedding of `AIConversationEngine.processMessage` from `src/ai.js`: the global
CANCEL check runs before the state switch; the five state handlers read the
database and the OpenAI collaborator, so they are taken as parameters (the
theorem about this function quantifies over them).  The switch dispatches
`CONTRACTOR_ONBOARDING`, `AWAITING_QUOTE_APPROVAL`,
`AWAITING_CONTRACTOR_RESPONSE` and `JOB_SCHEDULED` to their handlers and
everything else (`IDLE`, `CUSTOMER_INTAKE`, default) to
`handleSmartConversation`. -/
def processMessage
    (handleContractorOnboarding handleQuoteApproval handleContractorResponse
      handleScheduledJobMessages handleSmartConversation :
      List (String × String) → String → ConvResult)
    (state : String) (context : List (String × String)) (incomingMessage : String) :
    ConvResult :=
  if jsToUpper (jsTrim incomingMessage) = "CANCEL" then
    { state := "IDLE", context := [], reply := cancelResetReply }
  else if state = "CONTRACTOR_ONBOARDING" then handleContractorOnboarding context incomingMessage
  else if state = "AWAITING_QUOTE_APPROVAL" then handleQuoteApproval context incomingMessage
  else if state = "AWAITING_CONTRACTOR_RESPONSE" then handleContractorResponse context incomingMessage
  else if state = "JOB_SCHEDULED" then handleScheduledJobMessages context incomingMessage
  else handleSmartConversation context incomingMessage

/-- The `urgencyMap` of the `'urgency'` intake step in
`handleCustomerIntake` (`src/ai.js`): digits 1–4 name the four levels. -/
def intakeUrgencyMap (s : String) : Option String :=
  if s = "1" then some "low"
  else if s = "2" then some "medium"
  else if s = "3" then some "high"
  else if s = "4" then some "emergency"
  else none

/-- Embedding of `context.urgency_level = urgencyMap[message.trim()] || 'medium'`. -/
def intakeUrgency (message : String) : String :=
  (intakeUrgencyMap (jsTrim message)).getD "medium"

/-- The `urgencyMap` of `handleSmartConversation` (`src/ai.js`): the
identity on the four levels, everything else unmapped. -/
def smartUrgencyMap (s : String) : Option String :=
  if s = "low" then some "low"
  else if s = "medium" then some "medium"
  else if s = "high" then some "high"
  else if s = "emergency" then some "emergency"
  else none

/-- Embedding of `const urgency = urgencyMap[quoteData.urgency] || 'medium'`. -/
def smartUrgency (quoteDataUrgency : String) : String :=
  (smartUrgencyMap quoteDataUrgency).getD "medium"

/-- A row of the `jobs` table, restricted to the columns the scheduler and
the status-update routes read.  The scheduled date is encoded as a day
number and the scheduled time as `(hour, minute)`. -/
structure Job where
  id : Nat
  customer_id : Nat
  contractor_id : Option Nat
  status : String
  scheduled_day : Int
  scheduled_time : Option (Int × Int)
deriving DecidableEq

/-- The in-memory `this.jobs` map of `JobScheduler`: timer key to absolute
fire time in minutes (day × 1440 + minute of day).  Modelled as an
association list; the reminder logic never iterates the map, so insertion
order is irrelevant. -/
abbrev TimerMap := List (String × Int)

/-- JavaScript `Map.prototype.get`. -/
def mapGet (m : TimerMap) (k : String) : Option Int :=
  (m.find? (fun p => p.1 = k)).map (fun p => p.2)

/-- JavaScript `Map.prototype.set` (replaces any existing entry for the key). -/
def mapSet (m : TimerMap) (k : String) (v : Int) : TimerMap :=
  (k, v) :: m.filter (fun p => p.1 ≠ k)

/-- JavaScript `Map.prototype.delete`. -/
def mapDelete (m : TimerMap) (k : String) : TimerMap :=
  m.filter (fun p => p.1 ≠ k)

/-- The timer key `` `reminder_${jobId}_day_before` ``. -/
def dayBeforeKey (jobId : Nat) : String := "reminder_" ++ toString jobId ++ "_day_before"

/-- The timer key `` `reminder_${jobId}_day_of` ``. -/
def dayOfKey (jobId : Nat) : String := "reminder_" ++ toString jobId ++ "_day_of"

/-- The day-before fire time computed by `scheduleReminders`: 18:00 on the
day before the scheduled date. -/
def dayBeforeFireTime (job : Job) : Int := (job.scheduled_day - 1) * 1440 + 18 * 60

/-- The day-of fire time computed by `scheduleReminders`: two hours before
the scheduled time (`setHours(hour - 2, minute)`, which JavaScript
normalizes across midnight, as integer minute arithmetic does here), or
08:00 when no time is set. -/
def dayOfFireTime (job : Job) : Int :=
  match job.scheduled_time with
  | some (hour, minute) => job.scheduled_day * 1440 + (hour - 2) * 60 + minute
  | none => job.scheduled_day * 1440 + 8 * 60

/-- Embedding of `JobScheduler.scheduleReminders` from `src/scheduler.js`: register the
day-before and day-of one-shot timers, each only if its fire time is still
in the future (`now` is the current absolute time in minutes). -/
def scheduleReminders (job : Job) (now : Int) (m : TimerMap) : TimerMap :=
  let m1 :=
    if now < dayBeforeFireTime job then mapSet m (dayBeforeKey job.id) (dayBeforeFireTime job)
    else m
  if now < dayOfFireTime job then mapSet m1 (dayOfKey job.id) (dayOfFireTime job)
  else m1

/-- Embedding of `JobScheduler.cancelJobReminders` from `src/scheduler.js`: destroy and
remove both reminder timers of a job. -/
def cancelJobReminders (jobId : Nat) (m : TimerMap) : TimerMap :=
  mapDelete (mapDelete m (dayBeforeKey jobId)) (dayOfKey jobId)

/-- The pass branch of `POST /api/jobs/:jobId/respond` (`src/routes/api.js`,
`action === 'X' || action === 'pass'`): it runs
`db.updateJobStatus(jobId, 'cancelled')` and responds; the scheduler is not
invoked, so the pending timer map is passed through unchanged
(`cancelJobReminders` is only ever called from `rescheduleJob`). -/
def respondPass (job : Job) (timers : TimerMap) : Job × TimerMap :=
  ({ job with status := "cancelled" }, timers)

/-- The `validStatuses` list of `POST /dashboard/jobs/:jobId/status`
(`src/routes/dashboard.js`). -/
def validStatuses : List String :=
  ["quoted", "approved", "scheduled", "in_progress", "completed", "cancelled"]

/-- Embedding of `POST /dashboard/jobs/:jobId/status` (`src/routes/dashboard.js`): if the
requested status is in `validStatuses` it is applied unconditionally by
`db.updateJobStatus` and the route reports success, otherwise the route
answers 400 and the job is untouched.  Returns the stored job and whether
the request was accepted. -/
def dashboardUpdateStatus (job : Job) (status : String) : Job × Bool :=
  if validStatuses.contains status then ({ job with status := status }, true)
  else (job, false)

/-- Modelled from the spec, section 4.2 (this is the comparison lifecycle
graph, not code of the repository): forward edges
pending → quoted → approved → scheduled → in_progress → completed, the
`cancelled` branch from every non-terminal state, and the
`contractor_passed` branch with its `no_contractors_available` exhaustion
edge and its reassignment edge back to `quoted`. -/
def specLifecycleEdge (fromStatus toStatus : String) : Bool :=
  (fromStatus = "pending" && toStatus = "quoted") ||
  (fromStatus = "quoted" && toStatus = "approved") ||
  (fromStatus = "approved" && toStatus = "scheduled") ||
  (fromStatus = "scheduled" && toStatus = "in_progress") ||
  (fromStatus = "in_progress" && toStatus = "completed") ||
  (fromStatus = "quoted" && toStatus = "contractor_passed") ||
  (fromStatus = "contractor_passed" && toStatus = "quoted") ||
  (fromStatus = "contractor_passed" && toStatus = "no_contractors_available") ||
  ((fromStatus = "pending" || fromStatus = "quoted" || fromStatus = "approved" ||
    fromStatus = "scheduled" || fromStatus = "in_progress") && toStatus = "cancelled")

/-- An outbound text message: recipient phone number and body. -/
structure OutboundMsg where
  toPhone : String
  body : String
deriving DecidableEq

/-- The database state read by the reminder firing handlers. -/
structure SchedulerWorld where
  jobs : List Job
  contractors : List Contractor
deriving DecidableEq

/-- Embedding of `db.getJobById`. -/
def getJobById (w : SchedulerWorld) (jobId : Nat) : Option Job :=
  w.jobs.find? (fun j => j.id = jobId)

/-- Embedding of `db.getContractorByPhone`. -/
def getContractorByPhone (w : SchedulerWorld) (phone : String) : Option Contractor :=
  w.contractors.find? (fun c => c.phone_number = phone)

/-- Embedding of `JobScheduler.sendDayBeforeReminder` from `src/scheduler.js`, returning
the outbound messages it sends.  It re-reads the job at fire time and
returns without sending when the job is missing or its status is no longer
`scheduled`.  Past the guard it looks the contractor up by the hardcoded
placeholder phone number, and resolves the customer with
`db.getCustomerById?.(…)` — that helper does not exist in `db.js`, so the
optional call yields `undefined` and the customer is never found (message
bodies are abbreviated; no claim reads them). -/
def sendDayBeforeReminder (w : SchedulerWorld) (jobId : Nat) : List OutboundMsg :=
  match getJobById w jobId with
  | none => []
  | some job =>
    if job.status ≠ "scheduled" then []
    else
      let contractor := getContractorByPhone w "+1234567890"
      let customer : Option String := none
      match contractor, customer with
      | some c, some customerPhone =>
        [⟨c.phone_number, "Reminder: you have a job tomorrow"⟩,
         ⟨customerPhone, "Reminder: your service appointment is tomorrow"⟩]
      | _, _ => []

/-- Embedding of `JobScheduler.sendDayOfReminder` from `src/scheduler.js`, returning the
outbound messages it sends: same fresh-read guard as the day-before
handler, then a single contractor reminder when the placeholder contractor
lookup succeeds. -/
def sendDayOfReminder (w : SchedulerWorld) (jobId : Nat) : List OutboundMsg :=
  match getJobById w jobId with
  | none => []
  | some job =>
    if job.status ≠ "scheduled" then []
    else
      match getContractorByPhone w "+1234567890" with
      | some c => [⟨c.phone_number, "Job reminder: you have a scheduled appointment today"⟩]
      | none => []

/-- A concrete contractor used by witnesses: fee 75, rate 100, markup 1/4. -/
def wContractor : Contractor :=
  ⟨"+15550001", "Ace Plumbing", "plumber", "90210", ["drain cleaning"], 75, 100, some (1/4), true⟩

/-- A concrete job-details record used by witnesses. -/
def wJobDetails : JobDetails := ⟨"leaky faucet", "plumbing", "low"⟩

/-- A contractor row with a negative base fee.  Conversation onboarding
validates fees, but `POST /api/contractors` passes the request body to
`db.createContractor` unvalidated and the dashboard `/profile` update
accepts any fee, and no schema constraint forbids negative values, so this
row is a reachable database state. -/
def negContractor : Contractor :=
  ⟨"+15550002", "Bargain Repairs", "handyman", "90210", ["odd jobs"], -10, 1, some (1/4), true⟩

/-! Theorems. -/

/-- C3: for every job-details input and every contractor, the detailed-model
quote satisfies minCost ≤ maxCost, minCost ≥ baseFee + 0.5 × hourlyRate
(with the engine's effective base fee and hourly rate), and
maxCost ≥ minCost + 50. -/
theorem generateQuote_bounds (jd : JobDetails) (c : Contractor) (t : Option TimeInfo) :
    (generateQuote jd c t).minCost ≤ (generateQuote jd c t).maxCost ∧
    jsOrQ c.base_service_fee 75 + jsOrQ c.hourly_rate 100 * 0.5 ≤ (generateQuote jd c t).minCost ∧
    (generateQuote jd c t).minCost + 50 ≤ (generateQuote jd c t).maxCost := by
  unfold generateQuote
  dsimp only
  refine ⟨?_, le_max_right _ _, le_max_right _ _⟩
  have h := le_max_right ((jsRound (quoteTotal jd c t * 1.15) : ℤ) : ℚ)
    (max ((jsRound (quoteTotal jd c t * 0.85) : ℤ) : ℚ)
      (jsOrQ c.base_service_fee 75 + jsOrQ c.hourly_rate 100 * 0.5) + 50)
  linarith

/-- C8: every inbound urgency answer is normalized at intake — by the
numeric intake map of `handleCustomerIntake` and by the identity map of
`handleSmartConversation` — to one of exactly the four levels low, medium,
high, emergency, with unmapped answers becoming medium; these maps are the
only sources of the stored `urgency_level`, so every stored value is in
that set. -/
theorem urgency_normalized_to_four (message quoteDataUrgency : String) :
    intakeUrgency message ∈ (["low", "medium", "high", "emergency"] : List String) ∧
    smartUrgency quoteDataUrgency ∈ (["low", "medium", "high", "emergency"] : List String) := by
  refine ⟨?_, ?_⟩
  · unfold intakeUrgency intakeUrgencyMap
    split_ifs <;> simp
  · unfold smartUrgency smartUrgencyMap
    split_ifs <;> simp

/-- C2: from every conversation state and every context, an inbound message
whose trimmed upper-cased text is the literal CANCEL resets the
conversation to IDLE with an empty context and the reset-confirmation
reply, before any state handler runs (the result does not depend on the
handlers). -/
theorem cancel_always_resets
    (h1 h2 h3 h4 h5 : List (String × String) → String → ConvResult)
    (state : String) (context : List (String × String)) (incomingMessage : String)
    (hmsg : jsToUpper (jsTrim incomingMessage) = "CANCEL") :
    processMessage h1 h2 h3 h4 h5 state context incomingMessage =
      { state := "IDLE", context := [], reply := cancelResetReply } := by
  unfold processMessage
  rw [hmsg]
  simp

/-- Witness for C2: a mixed-case, padded CANCEL in state JOB_SCHEDULED with
a non-empty context resets to IDLE with an empty context. -/
theorem cancel_always_resets_witness :
    processMessage (fun c m => ⟨"X1", c, m⟩) (fun c m => ⟨"X2", c, m⟩)
      (fun c m => ⟨"X3", c, m⟩) (fun c m => ⟨"X4", c, m⟩) (fun c m => ⟨"X5", c, m⟩)
      "JOB_SCHEDULED" [("step", "hours")] "  cAnCeL " =
      { state := "IDLE", context := [], reply := cancelResetReply } :=
  cancel_always_resets _ _ _ _ _ _ _ _ (by decide)

/-- C1 counterexample: the dashboard status route accepts and applies the
request completed → quoted, which is not an edge of the section 4.2
lifecycle graph, and reports success — the claim that every non-edge
request leaves the status unchanged and is reported as rejected is false
on this code path. -/
theorem dashboard_status_bypasses_lifecycle_graph :
    specLifecycleEdge "completed" "quoted" = false ∧
    (dashboardUpdateStatus ⟨7, 1, some 2, "completed", 1, none⟩ "quoted").1.status = "quoted" ∧
    (dashboardUpdateStatus ⟨7, 1, some 2, "completed", 1, none⟩ "quoted").2 = true := by
  refine ⟨rfl, rfl, rfl⟩

/-- C1 (amended): the dashboard status route checks only membership of the
requested status in its fixed `validStatuses` list — a request outside the
list is rejected and leaves the job unchanged, while any request in the
list is applied regardless of the current status. -/
theorem dashboard_status_set_check (job : Job) (status : String) :
    (validStatuses.contains status = false → dashboardUpdateStatus job status = (job, false)) ∧
    (validStatuses.contains status = true →
      dashboardUpdateStatus job status = ({ job with status := status }, true)) := by
  constructor <;> intro h <;> · unfold dashboardUpdateStatus; rw [h]; simp

/-- Witness for C1: the request for status `pending` (outside
`validStatuses`) is rejected and leaves the job unchanged. -/
theorem dashboard_status_set_check_witness :
    dashboardUpdateStatus ⟨7, 1, some 2, "quoted", 1, none⟩ "pending" =
      (⟨7, 1, some 2, "quoted", 1, none⟩, false) :=
  (dashboard_status_set_check _ "pending").1 (by decide)

/-- C9: `parseContractorResponse` classifies every inbound text into
exactly one of the six actions approve, call_customer, custom_quote, pass,
invoice, unknown — the classification is total. -/
theorem parseContractorResponse_total (message : String) :
    (parseContractorResponse message).action ∈
      (["approve", "call_customer", "custom_quote", "pass", "invoice", "unknown"] : List String) := by
  unfold parseContractorResponse
  dsimp only
  repeat' split
  all_goals simp

/-- C5: a reminder timer firing handler re-reads the job at fire time and,
whenever the job does not exist or its status is no longer `scheduled`,
sends nothing — in particular a reminder firing after the job was cancelled
sends no message. -/
theorem reminder_fire_skips_unscheduled (w : SchedulerWorld) (jobId : Nat)
    (h : ∀ j, getJobById w jobId = some j → j.status ≠ "scheduled") :
    sendDayBeforeReminder w jobId = [] ∧ sendDayOfReminder w jobId = [] := by
  refine ⟨?_, ?_⟩
  · unfold sendDayBeforeReminder
    cases hj : getJobById w jobId with
    | none => rfl
    | some j => have hne := h j hj; simp [hne]
  · unfold sendDayOfReminder
    cases hj : getJobById w jobId with
    | none => rfl
    | some j => have hne := h j hj; simp [hne]

/-- Witness for C5: both handlers send nothing for a cancelled job, even
though a matching contractor row exists for the placeholder phone number. -/
theorem reminder_fire_skips_unscheduled_witness :
    sendDayBeforeReminder
      ⟨[⟨7, 1, some 2, "cancelled", 1, some (9, 0)⟩],
       [⟨"+1234567890", "Ace", "plumber", "90210", ["drains"], 75, 100, some 0.25, true⟩]⟩ 7 = [] ∧
    sendDayOfReminder
      ⟨[⟨7, 1, some 2, "cancelled", 1, some (9, 0)⟩],
       [⟨"+1234567890", "Ace", "plumber", "90210", ["drains"], 75, 100, some 0.25, true⟩]⟩ 7 = [] :=
  reminder_fire_skips_unscheduled _ 7 (fun j hj => by
    have h0 : getJobById
        ⟨[⟨7, 1, some 2, "cancelled", 1, some (9, 0)⟩],
         [⟨"+1234567890", "Ace", "plumber", "90210", ["drains"], 75, 100, some 0.25, true⟩]⟩ 7 =
        some ⟨7, 1, some 2, "cancelled", 1, some (9, 0)⟩ := rfl
    rw [h0] at hj
    injection hj with hj'
    rw [← hj']
    decide)

/-- Helper: looking up the key just set returns the new value. -/
theorem mapGet_mapSet_self (m : TimerMap) (k : String) (v : Int) :
    mapGet (mapSet m k v) k = some v := by
  unfold mapGet mapSet
  rw [List.find?_cons_of_pos _ (by simp)]
  rfl

/-- Helper: `find?` for one key ignores a filter that removes another key. -/
theorem find?_filter_ne (m : TimerMap) (k k' : String) (h : k' ≠ k) :
    List.find? (fun p => p.1 = k') (m.filter (fun p => p.1 ≠ k)) =
      List.find? (fun p => p.1 = k') m := by
  induction m with
  | nil => rfl
  | cons p t ih =>
    rw [List.filter_cons]
    by_cases h1 : p.1 = k
    · have hcond : (decide (p.1 ≠ k)) = false := by simp [h1]
      rw [hcond, if_neg (by simp)]
      rw [ih]
      have h2 : ¬ p.1 = k' := by rw [h1]; exact fun hh => h hh.symm
      rw [List.find?_cons_of_neg _ (by simp [h2])]
    · have hcond : (decide (p.1 ≠ k)) = true := by simp [h1]
      rw [hcond, if_pos rfl]
      by_cases h2 : p.1 = k'
      · rw [List.find?_cons_of_pos _ (by simp [h2]), List.find?_cons_of_pos _ (by simp [h2])]
      · rw [List.find?_cons_of_neg _ (by simp [h2]), List.find?_cons_of_neg _ (by simp [h2]), ih]

/-- Helper: setting one key leaves lookups of other keys unchanged. -/
theorem mapGet_mapSet_other (m : TimerMap) (k k' : String) (v : Int) (h : k' ≠ k) :
    mapGet (mapSet m k v) k' = mapGet m k' := by
  unfold mapGet mapSet
  rw [List.find?_cons_of_neg _ (by simp; exact fun hh => h hh.symm), find?_filter_ne m k k' h]

/-- Helper: a deleted key is absent. -/
theorem mapGet_mapDelete_self (m : TimerMap) (k : String) :
    mapGet (mapDelete m k) k = none := by
  unfold mapGet mapDelete
  have hfind : List.find? (fun p => p.1 = k) (m.filter (fun p => p.1 ≠ k)) = none := by
    rw [List.find?_eq_none]
    intro x hx
    have hmem := (List.mem_filter.mp hx).2
    simp only [decide_not, Bool.not_eq_true', decide_eq_false_iff_not] at hmem
    simp [hmem]
  rw [hfind]
  rfl

/-- Helper: deleting one key leaves lookups of other keys unchanged. -/
theorem mapGet_mapDelete_other (m : TimerMap) (k k' : String) (h : k' ≠ k) :
    mapGet (mapDelete m k) k' = mapGet m k' := by
  unfold mapGet mapDelete
  rw [find?_filter_ne m k k' h]

/-- Helper: the two reminder keys of a job never collide (their suffixes
have different lengths). -/
theorem dayBeforeKey_ne_dayOfKey (n : Nat) : dayBeforeKey n ≠ dayOfKey n := by
  unfold dayBeforeKey dayOfKey
  intro h
  have h' := congrArg String.length h
  rw [String.length_append, String.length_append, String.length_append,
    String.length_append] at h'
  have e1 : ("_day_before" : String).length = 11 := rfl
  have e2 : ("_day_of" : String).length = 7 := rfl
  rw [e1, e2] at h'
  omega

/-- C4 counterexample: for a job scheduled tomorrow at 09:00, registering
reminders creates the 18:00-today and 07:00-tomorrow timers, but cancelling
the job — the pass branch of the respond route, the only cancellation path
touching a scheduled job from the contractor side — leaves both timers in
the pending set while marking the job cancelled: cancelling a job does not
remove its timers (time is in absolute minutes; day 0 is today, so 1080 is
18:00 today and 1860 is 07:00 tomorrow). -/
theorem job_cancellation_leaves_timers :
    mapGet (scheduleReminders ⟨7, 1, some 2, "scheduled", 1, some (9, 0)⟩ 0 [])
      (dayBeforeKey 7) = some 1080 ∧
    mapGet (scheduleReminders ⟨7, 1, some 2, "scheduled", 1, some (9, 0)⟩ 0 [])
      (dayOfKey 7) = some 1860 ∧
    (respondPass ⟨7, 1, some 2, "scheduled", 1, some (9, 0)⟩
      (scheduleReminders ⟨7, 1, some 2, "scheduled", 1, some (9, 0)⟩ 0 [])).1.status =
      "cancelled" ∧
    mapGet (respondPass ⟨7, 1, some 2, "scheduled", 1, some (9, 0)⟩
      (scheduleReminders ⟨7, 1, some 2, "scheduled", 1, some (9, 0)⟩ 0 [])).2
      (dayBeforeKey 7) = some 1080 ∧
    mapGet (respondPass ⟨7, 1, some 2, "scheduled", 1, some (9, 0)⟩
      (scheduleReminders ⟨7, 1, some 2, "scheduled", 1, some (9, 0)⟩ 0 [])).2
      (dayOfKey 7) = some 1860 := by
  refine ⟨by decide, by decide, rfl, by decide, by decide⟩

/-- C4 (amended): for a job scheduled at 09:00 whose day-before fire time is
still in the future, registering reminders creates exactly one day-before
timer at 18:00 the prior day and exactly one day-of timer at 07:00 on the
scheduled day (no other key is touched), and the scheduler's
`cancelJobReminders` — which job cancellation itself never invokes —
removes both timers from any pending set. -/
theorem reminder_registration_and_cancel (job : Job) (now : Int) (m : TimerMap)
    (htime : job.scheduled_time = some (9, 0))
    (hnow : now < (job.scheduled_day - 1) * 1440 + 1080) :
    mapGet (scheduleReminders job now m) (dayBeforeKey job.id) =
      some ((job.scheduled_day - 1) * 1440 + 1080) ∧
    mapGet (scheduleReminders job now m) (dayOfKey job.id) =
      some (job.scheduled_day * 1440 + 420) ∧
    (∀ k, k ≠ dayBeforeKey job.id → k ≠ dayOfKey job.id →
      mapGet (scheduleReminders job now m) k = mapGet m k) ∧
    (∀ m2 : TimerMap,
      mapGet (cancelJobReminders job.id m2) (dayBeforeKey job.id) = none ∧
      mapGet (cancelJobReminders job.id m2) (dayOfKey job.id) = none) := by
  have hdb : dayBeforeFireTime job = (job.scheduled_day - 1) * 1440 + 1080 := by
    unfold dayBeforeFireTime; norm_num
  have hdo : dayOfFireTime job = job.scheduled_day * 1440 + 420 := by
    unfold dayOfFireTime; rw [htime]; norm_num
  have hnow2 : now < dayOfFireTime job := by rw [hdo]; linarith
  have hkeys := dayBeforeKey_ne_dayOfKey job.id
  have hsched : scheduleReminders job now m =
      mapSet (mapSet m (dayBeforeKey job.id) (dayBeforeFireTime job))
        (dayOfKey job.id) (dayOfFireTime job) := by
    unfold scheduleReminders
    rw [if_pos hnow2, if_pos (show now < dayBeforeFireTime job from by rw [hdb]; exact hnow)]
  refine ⟨?_, ?_, ?_, ?_⟩
  · rw [hsched, mapGet_mapSet_other _ _ _ _ hkeys, mapGet_mapSet_self, hdb]
  · rw [hsched, mapGet_mapSet_self, hdo]
  · intro k hk1 hk2
    rw [hsched, mapGet_mapSet_other _ _ _ _ hk2, mapGet_mapSet_other _ _ _ _ hk1]
  · intro m2
    unfold cancelJobReminders
    refine ⟨?_, ?_⟩
    · rw [mapGet_mapDelete_other _ _ _ hkeys, mapGet_mapDelete_self]
    · rw [mapGet_mapDelete_self]

/-- Witness for C4: the amended theorem applied to a concrete job scheduled
tomorrow (day 1) at 09:00 with `now` at midnight today. -/
theorem reminder_registration_and_cancel_witness :
    mapGet (scheduleReminders ⟨9, 1, some 2, "scheduled", 1, some (9, 0)⟩ 0 [])
      (dayBeforeKey 9) = some ((1 - 1) * 1440 + 1080) ∧
    mapGet (scheduleReminders ⟨9, 1, some 2, "scheduled", 1, some (9, 0)⟩ 0 [])
      (dayOfKey 9) = some (1 * 1440 + 420) :=
  ⟨(reminder_registration_and_cancel ⟨9, 1, some 2, "scheduled", 1, some (9, 0)⟩ 0 [] rfl
      (by norm_num)).1,
   (reminder_registration_and_cancel ⟨9, 1, some 2, "scheduled", 1, some (9, 0)⟩ 0 [] rfl
      (by norm_num)).2.1⟩


/-- Helper: `jsRound` is monotone. -/
theorem jsRound_mono {a b : ℚ} (h : a ≤ b) : jsRound a ≤ jsRound b :=
  Int.floor_le_floor (by linarith)

/-- Helper: the effective fee `x || d` is nonnegative when both are. -/
theorem jsOrQ_nonneg {x d : ℚ} (hx : 0 ≤ x) (hd : 0 ≤ d) : 0 ≤ jsOrQ x d := by
  unfold jsOrQ
  split_ifs <;> assumption

/-- Helper: the defaulted markup `x || d` is nonnegative when both are. -/
theorem jsOrOptQ_nonneg {x : Option ℚ} {d : ℚ} (hx : 0 ≤ x.getD 0) (hd : 0 ≤ d) :
    0 ≤ jsOrOptQ x d := by
  unfold jsOrOptQ
  cases x with
  | none => exact hd
  | some v =>
    have hv : 0 ≤ v := hx
    dsimp only
    split_ifs
    · exact hd
    · exact hv

/-- Helper: every complexity-table entry has nonnegative hours and multiplier. -/
theorem complexityFor_nonneg (category : String) (cx : Complexity) :
    0 ≤ (complexityFor category cx).hours ∧ 0 ≤ (complexityFor category cx).complexity := by
  unfold complexityFor categoryComplexity
  split_ifs <;> cases cx <;>
    norm_num [plumbingComplexity, electricalComplexity, hvacComplexity,
      generalHandymanComplexity, applianceRepairComplexity, roofingComplexity,
      flooringComplexity]

/-- Helper: every time-of-day multiplier is nonnegative. -/
theorem getTimeMultiplier_nonneg (t : TimeInfo) : 0 ≤ getTimeMultiplier t := by
  unfold getTimeMultiplier
  dsimp only
  split_ifs <;> try split_ifs
  all_goals norm_num

/-- Helper: the optional time multiplier is nonnegative. -/
theorem quoteTimeMultiplier_nonneg (t : Option TimeInfo) : 0 ≤ quoteTimeMultiplier t := by
  unfold quoteTimeMultiplier
  cases t with
  | none => norm_num
  | some ti => exact getTimeMultiplier_nonneg ti

/-- Helper: emergency raises (or keeps) the detailed-model total relative to
low urgency, all other inputs equal. -/
theorem quoteTotal_low_le_emergency (jd : JobDetails) (c : Contractor) (t : Option TimeInfo)
    (hb : 0 ≤ c.base_service_fee) (hr : 0 ≤ c.hourly_rate)
    (hm : 0 ≤ c.emergency_markup.getD 0) :
    quoteTotal { jd with urgency_level := "low" } c t ≤
      quoteTotal { jd with urgency_level := "emergency" } c t := by
  have hUL : quoteUrgency { jd with urgency_level := "low" } = "low" := rfl
  have hUE : quoteUrgency { jd with urgency_level := "emergency" } = "emergency" := rfl
  unfold quoteTotal
  rw [hUL, hUE]
  have hcat : quoteCategory { jd with urgency_level := "low" } =
      quoteCategory { jd with urgency_level := "emergency" } := rfl
  rw [hcat]
  have h1 : quoteUrgencyMultiplier "low" = 1 := by
    have e : urgencyMultipliers "low" = some 1.0 := rfl
    unfold quoteUrgencyMultiplier
    rw [e, Option.getD_some]
    norm_num
  have h2 : quoteUrgencyMultiplier "emergency" = 1 := by
    have e : urgencyMultipliers "emergency" = some 1.0 := rfl
    unfold quoteUrgencyMultiplier
    rw [e, Option.getD_some]
    norm_num
  have h3 : quoteEmergencyMultiplier c "low" = 1 := rfl
  have h4 : quoteEmergencyMultiplier c "emergency" = 1 + jsOrOptQ c.emergency_markup 0.5 := by
    unfold quoteEmergencyMultiplier
    rw [if_pos rfl]
  dsimp only
  rw [h1, h2, h3, h4]
  have hB : 0 ≤ (jsOrQ c.base_service_fee 75 +
      jsOrQ c.hourly_rate 100 *
        (complexityFor (quoteCategory { jd with urgency_level := "emergency" })
          (assessJobComplexity
            ({ jd with urgency_level := "emergency" } : JobDetails).problem_description
            (quoteCategory { jd with urgency_level := "emergency" }))).hours) *
      (complexityFor (quoteCategory { jd with urgency_level := "emergency" })
        (assessJobComplexity
          ({ jd with urgency_level := "emergency" } : JobDetails).problem_description
          (quoteCategory { jd with urgency_level := "emergency" }))).complexity :=
    mul_nonneg
      (add_nonneg (jsOrQ_nonneg hb (by norm_num))
        (mul_nonneg (jsOrQ_nonneg hr (by norm_num)) (complexityFor_nonneg _ _).1))
      (complexityFor_nonneg _ _).2
  have hTM := quoteTimeMultiplier_nonneg t
  have hMark : 0 ≤ jsOrOptQ c.emergency_markup 0.5 := jsOrOptQ_nonneg hm (by norm_num)
  nlinarith [mul_nonneg (mul_nonneg hB hTM) hMark]

/-- Helper: a larger total gives a pointwise larger detailed quote. -/
theorem generateQuote_mono_total (jd1 jd2 : JobDetails) (c : Contractor) (t : Option TimeInfo)
    (h : quoteTotal jd1 c t ≤ quoteTotal jd2 c t) :
    (generateQuote jd1 c t).minCost ≤ (generateQuote jd2 c t).minCost ∧
    (generateQuote jd1 c t).maxCost ≤ (generateQuote jd2 c t).maxCost := by
  unfold generateQuote
  dsimp only
  have hmin : ((jsRound (quoteTotal jd1 c t * 0.85) : ℤ) : ℚ) ≤
      ((jsRound (quoteTotal jd2 c t * 0.85) : ℤ) : ℚ) := by
    exact_mod_cast jsRound_mono (by nlinarith)
  have hmax : ((jsRound (quoteTotal jd1 c t * 1.15) : ℤ) : ℚ) ≤
      ((jsRound (quoteTotal jd2 c t * 1.15) : ℤ) : ℚ) := by
    exact_mod_cast jsRound_mono (by nlinarith)
  have hfmin : max ((jsRound (quoteTotal jd1 c t * 0.85) : ℤ) : ℚ)
        (jsOrQ c.base_service_fee 75 + jsOrQ c.hourly_rate 100 * 0.5) ≤
      max ((jsRound (quoteTotal jd2 c t * 0.85) : ℤ) : ℚ)
        (jsOrQ c.base_service_fee 75 + jsOrQ c.hourly_rate 100 * 0.5) :=
    max_le_max hmin le_rfl
  exact ⟨hfmin, max_le_max hmax (by linarith)⟩

/-- C6 counterexample: for the contractor with base fee −10 and hourly rate
1 (a reachable row, see `negContractor`) and emergency markup 1/4 ≥ 0 — the
claim's only stated assumption — the emergency estimate is strictly BELOW
the low-urgency estimate: for minCost and maxCost, in the detailed model
and in the simple model.  The claim as stated, quantifying over every
contractor with nonnegative markup, is therefore false. -/
theorem negative_fee_emergency_quote_drops :
    0 ≤ negContractor.emergency_markup.getD 0 ∧
    (generateQuote ⟨"hang a shelf", "general_handyman", "emergency"⟩ negContractor none).minCost <
      (generateQuote ⟨"hang a shelf", "general_handyman", "low"⟩ negContractor none).minCost ∧
    (generateQuote ⟨"hang a shelf", "general_handyman", "emergency"⟩ negContractor none).maxCost <
      (generateQuote ⟨"hang a shelf", "general_handyman", "low"⟩ negContractor none).maxCost ∧
    (simpleGenerateQuote "emergency" negContractor).1 < (simpleGenerateQuote "low" negContractor).1 ∧
    (simpleGenerateQuote "emergency" negContractor).2 < (simpleGenerateQuote "low" negContractor).2 := by
  have efee : negContractor.base_service_fee = -10 := rfl
  have erate : negContractor.hourly_rate = 1 := rfl
  have hqL : quoteTotal ⟨"hang a shelf", "general_handyman", "low"⟩ negContractor none =
      -81/10 := by
    unfold quoteTotal
    dsimp only
    have h1 : quoteCategory ⟨"hang a shelf", "general_handyman", "low"⟩ =
        "general_handyman" := rfl
    have h2 : quoteUrgency ⟨"hang a shelf", "general_handyman", "low"⟩ = "low" := rfl
    rw [h1, h2]
    have h3 : assessJobComplexity "hang a shelf" "general_handyman" = Complexity.simple := rfl
    rw [h3]
    have h4 : complexityFor "general_handyman" Complexity.simple =
        ⟨1, 0.9, "Simple fix"⟩ := rfl
    rw [h4]
    have h5 : quoteUrgencyMultiplier "low" = 1 := by
      have e : urgencyMultipliers "low" = some 1.0 := rfl
      unfold quoteUrgencyMultiplier
      rw [e, Option.getD_some]
      norm_num
    have h6 : quoteEmergencyMultiplier negContractor "low" = 1 := rfl
    have h7 : quoteTimeMultiplier (none : Option TimeInfo) = 1 := rfl
    rw [h5, h6, h7, efee, erate]
    unfold jsOrQ
    rw [if_neg (by norm_num : ¬ (-10 : ℚ) = 0), if_neg (by norm_num : ¬ (1 : ℚ) = 0)]
    norm_num
  have hqE : quoteTotal ⟨"hang a shelf", "general_handyman", "emergency"⟩ negContractor none =
      -81/8 := by
    unfold quoteTotal
    dsimp only
    have h1 : quoteCategory ⟨"hang a shelf", "general_handyman", "emergency"⟩ =
        "general_handyman" := rfl
    have h2 : quoteUrgency ⟨"hang a shelf", "general_handyman", "emergency"⟩ =
        "emergency" := rfl
    rw [h1, h2]
    have h3 : assessJobComplexity "hang a shelf" "general_handyman" = Complexity.simple := rfl
    rw [h3]
    have h4 : complexityFor "general_handyman" Complexity.simple =
        ⟨1, 0.9, "Simple fix"⟩ := rfl
    rw [h4]
    have h5 : quoteUrgencyMultiplier "emergency" = 1 := by
      have e : urgencyMultipliers "emergency" = some 1.0 := rfl
      unfold quoteUrgencyMultiplier
      rw [e, Option.getD_some]
      norm_num
    have h6 : quoteEmergencyMultiplier negContractor "emergency" = 1 + 1/4 := by
      unfold quoteEmergencyMultiplier
      rw [if_pos rfl]
      have e : negContractor.emergency_markup = some (1/4) := rfl
      rw [e]
      unfold jsOrOptQ
      dsimp only
      rw [if_neg (by norm_num : ¬ (1/4 : ℚ) = 0)]
    have h7 : quoteTimeMultiplier (none : Option TimeInfo) = 1 := rfl
    rw [h5, h6, h7, efee, erate]
    unfold jsOrQ
    rw [if_neg (by norm_num : ¬ (-10 : ℚ) = 0), if_neg (by norm_num : ¬ (1 : ℚ) = 0)]
    norm_num
  have habs : jsOrQ negContractor.base_service_fee 75 +
      jsOrQ negContractor.hourly_rate 100 * 0.5 = -19/2 := by
    rw [efee, erate]
    unfold jsOrQ
    rw [if_neg (by norm_num : ¬ (-10 : ℚ) = 0), if_neg (by norm_num : ¬ (1 : ℚ) = 0)]
    norm_num
  have hfLmin : jsRound (-81/10 * 0.85) = -7 := by unfold jsRound; norm_num
  have hfLmax : jsRound (-81/10 * 1.15) = -9 := by unfold jsRound; norm_num
  have hfEmin : jsRound (-81/8 * 0.85) = -9 := by unfold jsRound; norm_num
  have hfEmax : jsRound (-81/8 * 1.15) = -12 := by unfold jsRound; norm_num
  refine ⟨by norm_num [negContractor], ?_, ?_, ?_, ?_⟩
  · unfold generateQuote
    dsimp only
    rw [hqL, hqE, hfLmin, hfEmin, habs]
    rw [max_eq_left (show (-19/2 : ℚ) ≤ (((-9 : ℤ) : ℚ)) by norm_num),
      max_eq_left (show (-19/2 : ℚ) ≤ (((-7 : ℤ) : ℚ)) by norm_num)]
    norm_num
  · unfold generateQuote
    dsimp only
    rw [hqL, hqE, hfLmin, hfLmax, hfEmin, hfEmax, habs]
    rw [max_eq_left (show (-19/2 : ℚ) ≤ (((-9 : ℤ) : ℚ)) by norm_num),
      max_eq_left (show (-19/2 : ℚ) ≤ (((-7 : ℤ) : ℚ)) by norm_num)]
    rw [max_eq_right (show (((-12 : ℤ) : ℚ)) ≤ ((-9 : ℤ) : ℚ) + 50 by norm_num),
      max_eq_right (show (((-9 : ℤ) : ℚ)) ≤ ((-7 : ℤ) : ℚ) + 50 by norm_num)]
    norm_num
  · have e1 : simpleBaseMultiplier negContractor "low" = some 1.0 := rfl
    have e2 : simpleBaseMultiplier negContractor "emergency" = some (1 + 1/4) := rfl
    unfold simpleGenerateQuote
    rw [e1, e2]
    dsimp only
    rw [if_neg (by norm_num : ¬ (1.0 : ℚ) = 0),
      if_neg (by norm_num : ¬ ((1 : ℚ) + 1/4 = 0)), efee, erate]
    unfold jsRound
    norm_num
  · have e1 : simpleBaseMultiplier negContractor "low" = some 1.0 := rfl
    have e2 : simpleBaseMultiplier negContractor "emergency" = some (1 + 1/4) := rfl
    unfold simpleGenerateQuote
    rw [e1, e2]
    dsimp only
    rw [if_neg (by norm_num : ¬ (1.0 : ℚ) = 0),
      if_neg (by norm_num : ¬ ((1 : ℚ) + 1/4 = 0)), efee, erate]
    unfold jsRound
    norm_num

/-- C6 (amended): with the contractor's base fee and hourly rate
nonnegative — as conversation onboarding validates — in addition to the
claimed nonnegative emergency markup, an emergency job is estimated at
least as high as the same job at low urgency: for minCost and maxCost, in
the detailed model and in the simple model. -/
theorem emergency_ge_low_quote (jd : JobDetails) (c : Contractor) (t : Option TimeInfo)
    (hb : 0 ≤ c.base_service_fee) (hr : 0 ≤ c.hourly_rate)
    (hm : 0 ≤ c.emergency_markup.getD 0) :
    (generateQuote { jd with urgency_level := "low" } c t).minCost ≤
      (generateQuote { jd with urgency_level := "emergency" } c t).minCost ∧
    (generateQuote { jd with urgency_level := "low" } c t).maxCost ≤
      (generateQuote { jd with urgency_level := "emergency" } c t).maxCost ∧
    (simpleGenerateQuote "low" c).1 ≤ (simpleGenerateQuote "emergency" c).1 ∧
    (simpleGenerateQuote "low" c).2 ≤ (simpleGenerateQuote "emergency" c).2 := by
  obtain ⟨hdmin, hdmax⟩ := generateQuote_mono_total _ _ c t
    (quoteTotal_low_le_emergency jd c t hb hr hm)
  refine ⟨hdmin, hdmax, ?_, ?_⟩ <;>
  · have e1 : simpleBaseMultiplier c "low" = some 1.0 := rfl
    have e2 : simpleBaseMultiplier c "emergency" =
        some (1 + c.emergency_markup.getD 0) := rfl
    have h0 : ¬ (1 + c.emergency_markup.getD 0 = 0) := by
      intro hh
      linarith
    unfold simpleGenerateQuote
    rw [e1, e2]
    dsimp only
    rw [if_neg (by norm_num : ¬ (1.0 : ℚ) = 0), if_neg h0]
    apply jsRound_mono
    nlinarith [mul_nonneg hb hm, mul_nonneg hr hm]


/-- Witness for C6: the four inequalities at a concrete job and contractor. -/
theorem emergency_ge_low_quote_witness :
    (generateQuote ⟨"leaky faucet", "plumbing", "low"⟩ wContractor none).minCost ≤
      (generateQuote ⟨"leaky faucet", "plumbing", "emergency"⟩ wContractor none).minCost ∧
    (generateQuote ⟨"leaky faucet", "plumbing", "low"⟩ wContractor none).maxCost ≤
      (generateQuote ⟨"leaky faucet", "plumbing", "emergency"⟩ wContractor none).maxCost ∧
    (simpleGenerateQuote "low" wContractor).1 ≤ (simpleGenerateQuote "emergency" wContractor).1 ∧
    (simpleGenerateQuote "low" wContractor).2 ≤ (simpleGenerateQuote "emergency" wContractor).2 :=
  emergency_ge_low_quote ⟨"leaky faucet", "plumbing", "x"⟩ wContractor none
    (by norm_num [wContractor]) (by norm_num [wContractor]) (by norm_num [wContractor])

/-- Helper: the head of a stable descending insertion. -/
theorem head?_insertDesc {α : Type} (key : α → ℚ) (a : α) (l : List α) :
    (insertDesc key a l).head? = some (match l with
      | [] => a
      | b :: _ => if key b ≤ key a then a else b) := by
  cases l with
  | nil => rfl
  | cons b bs =>
    dsimp only [insertDesc]
    split_ifs <;> rfl

/-- Helper: the head of the stable descending sort is the earliest element
attaining the maximal key. -/
theorem sortDesc_head_firstMax {α : Type} (key : α → ℚ) (l : List α) (hl : l ≠ []) :
    ∃ i : ℕ, ∃ hi : i < l.length,
      (sortByScoreDesc key l).head? = some (l.get ⟨i, hi⟩) ∧
      (∀ j (hj : j < l.length), key (l.get ⟨j, hj⟩) ≤ key (l.get ⟨i, hi⟩)) ∧
      (∀ j (hj : j < l.length), j < i → key (l.get ⟨j, hj⟩) < key (l.get ⟨i, hi⟩)) := by
  induction l with
  | nil => exact absurd rfl hl
  | cons x xs ih =>
    by_cases hxs : xs = []
    · subst hxs
      refine ⟨0, by norm_num, rfl, ?_, ?_⟩
      · intro j hj
        have hlen1 : ([x] : List α).length = 1 := rfl
        rw [hlen1] at hj
        have hj0 : j = 0 := by omega
        subst hj0
        exact le_rfl
      · intro j hj hji
        exact absurd hji (Nat.not_lt_zero j)
    · obtain ⟨i', hi', hhead, hmax, hfirst⟩ := ih hxs
      have hs : sortByScoreDesc key (x :: xs) = insertDesc key x (sortByScoreDesc key xs) := rfl
      cases hsort : sortByScoreDesc key xs with
      | nil => rw [hsort] at hhead; simp at hhead
      | cons m rest =>
        rw [hsort] at hhead
        have hm : m = xs.get ⟨i', hi'⟩ := by simpa using hhead
        by_cases hk : key m ≤ key x
        · refine ⟨0, by norm_num, ?_, ?_, ?_⟩
          · rw [hs, hsort]
            dsimp only [insertDesc]
            rw [if_pos hk]
            rfl
          · intro j hj
            cases j with
            | zero => exact le_rfl
            | succ j1 =>
              have hj1 : j1 < xs.length := by simpa using Nat.lt_of_succ_lt_succ hj
              have h1 := hmax j1 hj1
              have h2 : key (xs.get ⟨j1, hj1⟩) ≤ key m := by rw [hm]; exact h1
              exact le_trans h2 hk
          · intro j hj hji
            omega
        · push_neg at hk
          refine ⟨i' + 1, by simpa using Nat.succ_lt_succ hi', ?_, ?_, ?_⟩
          · rw [hs, hsort]
            dsimp only [insertDesc]
            rw [if_neg (not_le.mpr hk)]
            show some m = _
            rw [hm]
            rfl
          · intro j hj
            cases j with
            | zero => exact le_of_lt (hm ▸ hk)
            | succ j1 =>
              have hj1 : j1 < xs.length := by simpa using Nat.lt_of_succ_lt_succ hj
              exact hmax j1 hj1
          · intro j hj hji
            cases j with
            | zero => exact hm ▸ hk
            | succ j1 =>
              have hj1 : j1 < xs.length := by simpa using Nat.lt_of_succ_lt_succ hj
              exact hfirst j1 hj1 (Nat.lt_of_succ_lt_succ hji)

/-- C7: on a non-empty candidate list, `findBestContractor` returns the
scored record of some input contractor whose score is the weighted sum —
price competitiveness 40%, service match 30%, active flag 20%, emergency
capability 10% — such that no candidate scores higher, and every candidate
appearing earlier in the input list scores strictly lower (so ties are won
by the earlier candidate). -/
theorem findBestContractor_spec (jd : JobDetails) (cs : List Contractor) (h : cs ≠ []) :
    ∃ i : ℕ, ∃ hi : i < cs.length,
      findBestContractor jd cs = some (scoreContractor jd (cs.get ⟨i, hi⟩)) ∧
      (scoreContractor jd (cs.get ⟨i, hi⟩)).score =
        max 0 (1000 - ((generateQuote jd (cs.get ⟨i, hi⟩) none).averageCost : ℚ)) / 1000 * 40 +
        calculateServiceMatch jd.service_category (cs.get ⟨i, hi⟩).services_offered * 30 +
        (if (cs.get ⟨i, hi⟩).is_active then 1 else 0) * 20 +
        (if jd.urgency_level = "emergency" ∧ (cs.get ⟨i, hi⟩).emergency_markup.isSome
          then 1 else 0.5) * 10 ∧
      (∀ j (hj : j < cs.length),
        (scoreContractor jd (cs.get ⟨j, hj⟩)).score ≤
          (scoreContractor jd (cs.get ⟨i, hi⟩)).score) ∧
      (∀ j (hj : j < cs.length), j < i →
        (scoreContractor jd (cs.get ⟨j, hj⟩)).score <
          (scoreContractor jd (cs.get ⟨i, hi⟩)).score) := by
  have hmap : cs.map (scoreContractor jd) ≠ [] := by
    simpa using h
  obtain ⟨i, hi, hhead, hmax, hfirst⟩ :=
    sortDesc_head_firstMax (fun s => s.score) (cs.map (scoreContractor jd)) hmap
  have hlen : (cs.map (scoreContractor jd)).length = cs.length := List.length_map _ _
  have hi2 : i < cs.length := hlen ▸ hi
  have hget : ∀ (j : ℕ) (hja : j < (cs.map (scoreContractor jd)).length) (hjb : j < cs.length),
      (cs.map (scoreContractor jd)).get ⟨j, hja⟩ = scoreContractor jd (cs.get ⟨j, hjb⟩) := by
    intro j hja hjb
    rw [List.get_eq_getElem, List.get_eq_getElem, List.getElem_map]
  refine ⟨i, hi2, ?_, rfl, ?_, ?_⟩
  · obtain ⟨c0, cs0, rfl⟩ := List.exists_cons_of_ne_nil h
    unfold findBestContractor
    rw [if_neg (by norm_num)]
    rw [hhead, hget i hi hi2]
  · intro j hj
    have h1 := hmax j (hlen.symm ▸ hj)
    rw [hget j (hlen.symm ▸ hj) hj, hget i hi hi2] at h1
    exact h1
  · intro j hj hji
    have h1 := hfirst j (hlen.symm ▸ hj) hji
    rw [hget j (hlen.symm ▸ hj) hj, hget i hi hi2] at h1
    exact h1

/-- Witness for C7: the theorem at a concrete one-element candidate list. -/
theorem findBestContractor_spec_witness :
    ∃ i : ℕ, ∃ hi : i < [wContractor].length,
      findBestContractor wJobDetails [wContractor] =
        some (scoreContractor wJobDetails ([wContractor].get ⟨i, hi⟩)) ∧
      (scoreContractor wJobDetails ([wContractor].get ⟨i, hi⟩)).score =
        max 0 (1000 -
          ((generateQuote wJobDetails ([wContractor].get ⟨i, hi⟩) none).averageCost : ℚ)) /
            1000 * 40 +
        calculateServiceMatch wJobDetails.service_category
          ([wContractor].get ⟨i, hi⟩).services_offered * 30 +
        (if ([wContractor].get ⟨i, hi⟩).is_active then 1 else 0) * 20 +
        (if wJobDetails.urgency_level = "emergency" ∧
            ([wContractor].get ⟨i, hi⟩).emergency_markup.isSome then 1 else 0.5) * 10 ∧
      (∀ j (hj : j < [wContractor].length),
        (scoreContractor wJobDetails ([wContractor].get ⟨j, hj⟩)).score ≤
          (scoreContractor wJobDetails ([wContractor].get ⟨i, hi⟩)).score) ∧
      (∀ j (hj : j < [wContractor].length), j < i →
        (scoreContractor wJobDetails ([wContractor].get ⟨j, hj⟩)).score <
          (scoreContractor wJobDetails ([wContractor].get ⟨i, hi⟩)).score) :=
  findBestContractor_spec wJobDetails [wContractor] (List.cons_ne_nil _ _)

/-- Helper: a custom_quote classification carries a positive parsed amount. -/
theorem parse_custom_quote_pos (message : String) :
    (parseContractorResponse message).action = "custom_quote" →
      ∃ a : ℚ,
        jsParseFloat (stripDollarsCommas (jsSubstringFrom (jsTrim (jsToUpper message)) 2)) =
          some a ∧
        0 < a ∧ (parseContractorResponse message).amount = some a := by
  intro h
  unfold parseContractorResponse at h ⊢
  dsimp only at h ⊢
  split_ifs at h ⊢ with h1 h2 h3 h4 h5
  · simp at h
  · simp at h
  · simp at h
  · cases hp : jsParseFloat (stripDollarsCommas (jsSubstringFrom (jsTrim (jsToUpper message)) 2)) with
    | none => simp only [hp] at h; simp at h
    | some a =>
      simp only [hp] at h ⊢
      by_cases hpos : 0 < a
      · refine ⟨a, rfl, hpos, ?_⟩
        rw [if_pos hpos]
      · rw [if_neg hpos] at h
        simp at h
  · cases hp : jsParseFloat (stripDollarsCommas
        ((jsSplitSpace (jsSubstringFrom (jsTrim (jsToUpper message)) 8)).headD "")) with
    | none => simp only [hp] at h; simp at h
    | some a =>
      simp only [hp] at h
      by_cases hcond : 0 < a ∧
          jsJoinSpace ((jsSplitSpace (jsSubstringFrom (jsTrim (jsToUpper message)) 8)).drop 1) ≠ ""
      · rw [if_pos hcond] at h
        simp at h
      · rw [if_neg hcond] at h
        simp at h
  · simp at h

/-- Helper: an invoice classification carries a positive parsed amount and a
non-empty description. -/
theorem parse_invoice_pos (message : String) :
    (parseContractorResponse message).action = "invoice" →
      ∃ a : ℚ,
        jsParseFloat (stripDollarsCommas
          ((jsSplitSpace (jsSubstringFrom (jsTrim (jsToUpper message)) 8)).headD "")) = some a ∧
        0 < a ∧ (parseContractorResponse message).amount = some a ∧
        (parseContractorResponse message).description =
          some (jsJoinSpace ((jsSplitSpace (jsSubstringFrom (jsTrim (jsToUpper message)) 8)).drop 1)) ∧
        jsJoinSpace ((jsSplitSpace (jsSubstringFrom (jsTrim (jsToUpper message)) 8)).drop 1) ≠ "" := by
  intro h
  unfold parseContractorResponse at h ⊢
  dsimp only at h ⊢
  split_ifs at h ⊢ with h1 h2 h3 h4 h5
  · simp at h
  · simp at h
  · simp at h
  · cases hp : jsParseFloat (stripDollarsCommas (jsSubstringFrom (jsTrim (jsToUpper message)) 2)) with
    | none => simp only [hp] at h; simp at h
    | some a =>
      simp only [hp] at h
      by_cases hpos : 0 < a
      · rw [if_pos hpos] at h
        simp at h
      · rw [if_neg hpos] at h
        simp at h
  · cases hp : jsParseFloat (stripDollarsCommas
        ((jsSplitSpace (jsSubstringFrom (jsTrim (jsToUpper message)) 8)).headD "")) with
    | none => simp only [hp] at h; simp at h
    | some a =>
      simp only [hp] at h ⊢
      by_cases hcond : 0 < a ∧
          jsJoinSpace ((jsSplitSpace (jsSubstringFrom (jsTrim (jsToUpper message)) 8)).drop 1) ≠ ""
      · refine ⟨a, rfl, hcond.1, ?_, ?_, hcond.2⟩
        · rw [if_pos hcond]
        · rw [if_pos hcond]
      · rw [if_neg hcond] at h
        simp at h
  · simp at h

/-- C10: a custom_quote action is returned only when the text after the
`Q ` prefix parses to a strictly positive number, and an invoice action only
when the amount after `INVOICE ` is strictly positive and the remaining
description is non-empty; `Q 0`, a negative amount, a non-numeric amount, an
`INVOICE` with no description, and an `INVOICE` with amount 0 all fall
through to the unknown action. -/
theorem parse_amount_validation (message : String) :
    ((parseContractorResponse message).action = "custom_quote" →
      ∃ a : ℚ,
        jsParseFloat (stripDollarsCommas (jsSubstringFrom (jsTrim (jsToUpper message)) 2)) =
          some a ∧
        0 < a ∧ (parseContractorResponse message).amount = some a) ∧
    ((parseContractorResponse message).action = "invoice" →
      ∃ a : ℚ,
        jsParseFloat (stripDollarsCommas
          ((jsSplitSpace (jsSubstringFrom (jsTrim (jsToUpper message)) 8)).headD "")) = some a ∧
        0 < a ∧ (parseContractorResponse message).amount = some a ∧
        (parseContractorResponse message).description =
          some (jsJoinSpace ((jsSplitSpace (jsSubstringFrom (jsTrim (jsToUpper message)) 8)).drop 1)) ∧
        jsJoinSpace ((jsSplitSpace (jsSubstringFrom (jsTrim (jsToUpper message)) 8)).drop 1) ≠ "") ∧
    (parseContractorResponse "Q 0").action = "unknown" ∧
    (parseContractorResponse "Q -5").action = "unknown" ∧
    (parseContractorResponse "Q ABC").action = "unknown" ∧
    (parseContractorResponse "INVOICE 100").action = "unknown" ∧
    (parseContractorResponse "INVOICE 0 FIX SINK").action = "unknown" :=
  ⟨parse_custom_quote_pos message, parse_invoice_pos message,
   by decide, by decide, by decide, by decide, by decide⟩

/-- Witness for C10: `Q 50` classifies as custom_quote with amount 50. -/
theorem parse_amount_validation_witness :
    ∃ a : ℚ,
      jsParseFloat (stripDollarsCommas (jsSubstringFrom (jsTrim (jsToUpper "Q 50")) 2)) =
        some a ∧
      0 < a ∧ (parseContractorResponse "Q 50").amount = some a :=
  (parse_amount_validation "Q 50").1 (by decide)

end JobFlow
